import Mathlib

/-!
# Verification of the NSE accumulation scanner (src/app.py)

Shallow embedding of the single-file pandas pipeline in `app.py`:
column validation, numeric coercion with row dropping, the four-stage
filter chain, the accumulation scorer, and the descending sort.

Numbers are modelled as exact rationals (`ℚ`).  Division by zero in `ℚ`
yields `0`; in the source (pandas float64) a division by `HI_52_WK = 0`
yields `±inf` or `NaN`.  Every claim proved below that touches such a
division depends only on the divided value failing the proximity-filter
window `0.5 < d ≤ max_distance` (with `max_distance ≤ 15`), which holds
both for `0` in the model and for `±inf`/`NaN` in the source, so the
model and the source agree on all filter outcomes used here.

The descending sort (`sort_values(by="ACCUMULATION_%", ascending=False)`,
default `kind="quicksort"`) is modelled with a deterministic comparison
sort; pandas documents only the `mergesort`/`stable` kinds as stable, so
the order among tied scores is implementation-defined in the source, and
no theorem below depends on the model's order among equal scores — only
on it being a permutation.
-/

namespace Scanner

/-- A fully coerced data row: the seven required columns of the CSV
after `pd.to_numeric` succeeded on the six numeric ones (app.py:27-46). -/
structure Row where
  security : String
  net_trdqty : ℚ
  close_price : ℚ
  hi_52_wk : ℚ
  low_price : ℚ
  high_price : ℚ
  trades : ℚ
deriving DecidableEq, Repr

/-- The three user-adjustable thresholds (app.py:52-54, integer sliders). -/
structure Params where
  min_volume : ℤ
  max_distance : ℤ
  min_trades : ℤ
deriving DecidableEq, Repr

/-- Slider ranges of app.py:52-54: `min_volume ∈ [1,500]`,
`max_distance ∈ [2,15]`, `min_trades ∈ [1000,500000]`. -/
def Admissible (p : Params) : Prop :=
  1 ≤ p.min_volume ∧ p.min_volume ≤ 500 ∧
  2 ≤ p.max_distance ∧ p.max_distance ≤ 15 ∧
  1000 ≤ p.min_trades ∧ p.min_trades ≤ 500000

instance (p : Params) : Decidable (Admissible p) :=
  inferInstanceAs (Decidable (1 ≤ p.min_volume ∧ p.min_volume ≤ 500 ∧
    2 ≤ p.max_distance ∧ p.max_distance ≤ 15 ∧
    1000 ≤ p.min_trades ∧ p.min_trades ≤ 500000))

/-- `DIST_52W_% = (HI_52_WK - CLOSE_PRICE) / HI_52_WK * 100` (app.py:64-67). -/
def dist52 (r : Row) : ℚ :=
  (r.hi_52_wk - r.close_price) / r.hi_52_wk * 100

/-- `DAY_RANGE_% = (HIGH_PRICE - LOW_PRICE) / CLOSE_PRICE * 100` (app.py:78-81). -/
def dayRange (r : Row) : ℚ :=
  (r.high_price - r.low_price) / r.close_price * 100

/-- Stage 1 predicate: `NET_TRDQTY > min_volume * 100000` (app.py:61). -/
def volumeCond (p : Params) (r : Row) : Bool :=
  decide ((p.min_volume : ℚ) * 100000 < r.net_trdqty)

/-- Stage 2 predicate: `DIST_52W_% > 0.5` and `DIST_52W_% <= max_distance`
(app.py:69-72). -/
def proximityCond (p : Params) (r : Row) : Bool :=
  decide (1/2 < dist52 r) && decide (dist52 r ≤ (p.max_distance : ℚ))

/-- Stage 3 predicate: `TRADES > min_trades` (app.py:75). -/
def tradesCond (p : Params) (r : Row) : Bool :=
  decide ((p.min_trades : ℚ) < r.trades)

/-- Stage 4 predicate: `DAY_RANGE_% < 5` (app.py:83). -/
def rangeCond (r : Row) : Bool :=
  decide (dayRange r < 5)

/-- Stage 1: volume filter (app.py:61). -/
def volumeFilter (p : Params) (rows : List Row) : List Row :=
  rows.filter (volumeCond p)

/-- Stage 2: proximity-to-52-week-high filter (app.py:69-72). -/
def proximityFilter (p : Params) (rows : List Row) : List Row :=
  rows.filter (proximityCond p)

/-- Stage 3: trade-participation filter (app.py:75). -/
def tradesFilter (p : Params) (rows : List Row) : List Row :=
  rows.filter (tradesCond p)

/-- Stage 4: day-range compression filter (app.py:83). -/
def rangeFilter (rows : List Row) : List Row :=
  rows.filter rangeCond

/-- The four filter stages in the implemented order (app.py:60-83). -/
def filterChain (p : Params) (rows : List Row) : List Row :=
  rangeFilter (tradesFilter p (proximityFilter p (volumeFilter p rows)))

/-- Round-half-to-even to an integer, the tie rule of Python `round`. -/
def roundHalfEven (q : ℚ) : ℤ :=
  if Int.fract q < 1/2 then ⌊q⌋
  else if 1/2 < Int.fract q then ⌊q⌋ + 1
  else if ⌊q⌋ % 2 = 0 then ⌊q⌋ else ⌊q⌋ + 1

/-- `round(x, 2)` of app.py:94: round to two decimal places. -/
def round2 (q : ℚ) : ℚ :=
  (roundHalfEven (q * 100) : ℚ) / 100

/-- `calculate_score` (app.py:89-98): three clamped sub-scores combined
with weights 0.4/0.3/0.3, scaled to percent and rounded to 2 places. -/
def calculate_score (p : Params) (r : Row) : ℚ :=
  let volume_score := min (r.net_trdqty / 10000000) 1
  let trade_score := min (r.trades / 100000) 1
  let proximity_score := 1 - min (dist52 r / (p.max_distance : ℚ)) 1
  round2 ((volume_score * (4/10) + trade_score * (3/10) + proximity_score * (3/10)) * 100)

/-- app.py:100: attach `ACCUMULATION_%` to every surviving row. -/
def scoreRows (p : Params) (rows : List Row) : List (Row × ℚ) :=
  rows.map (fun r => (r, calculate_score p r))

/-- app.py:102: sort by `ACCUMULATION_%` descending.  Deterministic model
of `sort_values`; the source's order among equal scores is
implementation-defined (numpy quicksort), and no proof below uses the
model's tie order. -/
def sortByScoreDesc (rows : List (Row × ℚ)) : List (Row × ℚ) :=
  List.insertionSort (fun a b => b.2 ≤ a.2) rows

/-- The whole post-coercion pipeline: filter chain, scorer, sort
(app.py:60-102). -/
def pipeline (p : Params) (rows : List Row) : List (Row × ℚ) :=
  sortByScoreDesc (scoreRows p (filterChain p rows))

example : dist52 ⟨"FOO", 3000000, 95, 100, 93, 96, 15000⟩ = 5 := by
  unfold dist52; norm_num

example : calculate_score ⟨20, 6, 10000⟩ ⟨"FOO", 3000000, 95, 100, 93, 96, 15000⟩ = 43/2 := by
  unfold calculate_score round2 dist52
  norm_num [min_def, roundHalfEven]

/-! ## Validator and Coercer (app.py:25-46) -/

/-- The seven required column names (app.py:27-35). -/
def required_cols : List String :=
  ["SECURITY", "NET_TRDQTY", "CLOSE_PRICE", "HI_52_WK", "LOW_PRICE", "HIGH_PRICE", "TRADES"]

/-- Remove leading and trailing whitespace from a character list. -/
def trimChars (cs : List Char) : List Char :=
  ((cs.dropWhile Char.isWhitespace).reverse.dropWhile Char.isWhitespace).reverse

/-- `str.strip().str.upper()` applied to one column label (app.py:25),
modelled character-wise so that it evaluates by kernel reduction. -/
def normalizeLabel (s : String) : String :=
  ⟨(trimChars s.data).map Char.toUpper⟩

/-- app.py:25: normalize every column label. -/
def normalizeHeader (cols : List String) : List String :=
  cols.map normalizeLabel

/-- app.py:37-40: the run proceeds only when every required column is
present in the normalized header. -/
def headerOk (cols : List String) : Bool :=
  required_cols.all (fun c => (normalizeHeader cols).contains c)

/-- One cell of a numeric column before coercion: an already-numeric
value, a textual value still to be parsed, or a missing value (NaN). -/
inductive Cell where
  | num (q : ℚ)
  | str (s : String)
  | missing
deriving DecidableEq, Repr

/-- Numeric value of a decimal digit. -/
def digitVal (c : Char) : Option ℕ :=
  if c.isDigit then some (c.toNat - 48) else none

/-- Value of a digit string, `none` as soon as one character is not a
digit. -/
def digitsVal (cs : List Char) : Option ℕ :=
  cs.foldl
    (fun acc c =>
      match acc, digitVal c with
      | some n, some d => some (n * 10 + d)
      | _, _ => none)
    (some 0)

/-- Signed decimal value of a digit run with `fracLen` digits after the
decimal point; `none` when there are no digits at all. -/
def buildDecimal (neg : Bool) (digits : List Char) (fracLen : ℕ) : Option ℚ :=
  if digits.isEmpty then none
  else
    (digitsVal digits).map fun n =>
      (if neg then -(n : ℚ) else (n : ℚ)) / 10 ^ fracLen

/-- Numeric-literal parsing on a trimmed character list: optional sign,
decimal digits with an optional fractional part. -/
def parseDecimalChars : List Char → Option ℚ
  | [] => none
  | first :: rest =>
    let neg := first = '-'
    let body := if first = '-' ∨ first = '+' then rest else first :: rest
    let intPart := body.takeWhile Char.isDigit
    let tail := body.dropWhile Char.isDigit
    match tail with
    | [] => buildDecimal neg intPart 0
    | sep :: fracPart =>
      if sep = '.' ∧ fracPart.all Char.isDigit then
        buildDecimal neg (intPart ++ fracPart) fracPart.length
      else none

/-- Model of the numeric-literal parsing done by
`pd.to_numeric(errors="coerce")` on a textual cell: optional surrounding
whitespace, optional sign, decimal digits with an optional fractional
part (scientific notation is left out; no claim depends on which exact
strings parse, only on unparseable ones mapping to `none`). -/
def parseDecimal (s : String) : Option ℚ :=
  parseDecimalChars (trimChars s.data)

/-- `pd.to_numeric(col, errors="coerce")` on one cell (app.py:43-44): a
cell that fails to parse becomes missing (`none`) instead of raising. -/
def to_numeric (c : Cell) : Option ℚ :=
  match c with
  | .num q => some q
  | .str s => parseDecimal s
  | .missing => none

/-- A raw CSV row after the Validator: the `SECURITY` cell (missing when
NaN), the six numeric-column cells, and the cells of any extra
(non-required) columns, which `dropna` also inspects (app.py:46). -/
structure RawRow where
  security : Option String
  net_trdqty : Cell
  close_price : Cell
  hi_52_wk : Cell
  low_price : Cell
  high_price : Cell
  trades : Cell
  extra : List (Option String)
deriving DecidableEq, Repr

/-- Coerce one raw row (app.py:43-46): run `to_numeric` on the six
numeric required columns; then `dropna` keeps the row only when no cell
in any column — `SECURITY`, the six numeric columns, and every extra
column — is missing. -/
def coerceRow (raw : RawRow) : Option Row :=
  match raw.security, to_numeric raw.net_trdqty, to_numeric raw.close_price,
      to_numeric raw.hi_52_wk, to_numeric raw.low_price, to_numeric raw.high_price,
      to_numeric raw.trades with
  | some s, some v, some c, some h, some lo, some hi, some t =>
    if raw.extra.all Option.isSome then some ⟨s, v, c, h, lo, hi, t⟩ else none
  | _, _, _, _, _, _, _ => none

/-- The Coercer stage over the whole dataset (app.py:43-46). -/
def coercer (raws : List RawRow) : List Row :=
  raws.filterMap coerceRow

/-- Spec-side completeness predicate (§4.2): the row has no missing
value in any column once the six numeric cells are coerced. -/
def rowComplete (raw : RawRow) : Bool :=
  raw.security.isSome && (to_numeric raw.net_trdqty).isSome &&
    (to_numeric raw.close_price).isSome && (to_numeric raw.hi_52_wk).isSome &&
    (to_numeric raw.low_price).isSome && (to_numeric raw.high_price).isSome &&
    (to_numeric raw.trades).isSome && raw.extra.all Option.isSome

/-- The whole run (app.py:25-102): the Validator halts with the fatal
message of app.py:39 when a required column is missing from the
normalized header; otherwise coercion, filtering, scoring and sorting
run to completion and no further error is ever signaled. -/
def runScanner (header : List String) (raws : List RawRow) (p : Params) :
    Except String (List (Row × ℚ)) :=
  if headerOk header then .ok (pipeline p (coercer raws)) else .error "Required columns not found in CSV."

example : parseDecimal "12.5" = some (25/2) := by
  have h : trimChars "12.5".data = ['1', '2', '.', '5'] := by decide
  rw [parseDecimal, h]
  simp +decide [parseDecimalChars, digitsVal, digitVal, buildDecimal]
  norm_num

example : parseDecimal "abc" = none := by decide

example : headerOk [" security ", "net_trdqty", "CLOSE_PRICE", "HI_52_WK", "LOW_PRICE", "HIGH_PRICE", "TRADES"] = true := by
  decide

/-! ## Helper lemmas -/

theorem mem_filterChain_iff (p : Params) (rows : List Row) (r : Row) :
    r ∈ filterChain p rows ↔
      r ∈ rows ∧ volumeCond p r = true ∧ proximityCond p r = true ∧
        tradesCond p r = true ∧ rangeCond r = true := by
  simp only [filterChain, rangeFilter, tradesFilter, proximityFilter, volumeFilter,
    List.mem_filter]
  tauto

theorem mem_pipeline_iff (p : Params) (rows : List Row) (r : Row) (s : ℚ) :
    (r, s) ∈ pipeline p rows ↔ r ∈ filterChain p rows ∧ s = calculate_score p r := by
  unfold pipeline sortByScoreDesc scoreRows
  rw [List.mem_insertionSort]
  constructor
  · intro h
    rcases List.mem_map.mp h with ⟨a, ha, heq⟩
    cases heq
    exact ⟨ha, rfl⟩
  · rintro ⟨hr, rfl⟩
    exact List.mem_map.mpr ⟨r, hr, rfl⟩

theorem pipeline_length (p : Params) (rows : List Row) :
    (pipeline p rows).length = (filterChain p rows).length := by
  unfold pipeline sortByScoreDesc scoreRows
  rw [(List.perm_insertionSort _ _).length_eq, List.length_map]

theorem filterChain_eq_filter (p : Params) (rows : List Row) :
    filterChain p rows =
      rows.filter (fun r => volumeCond p r && proximityCond p r && tradesCond p r && rangeCond r) := by
  unfold filterChain rangeFilter tradesFilter proximityFilter volumeFilter
  simp only [List.filter_filter]
  apply List.filter_congr
  intro r _
  cases volumeCond p r <;> cases proximityCond p r <;> cases tradesCond p r <;>
    cases rangeCond r <;> rfl

theorem length_filter_mono {f g : Row → Bool} (h : ∀ r, g r = true → f r = true)
    (rows : List Row) : (rows.filter g).length ≤ (rows.filter f).length := by
  induction rows with
  | nil => simp
  | cons a l ih =>
    by_cases hg : g a = true
    · rw [List.filter_cons_of_pos hg, List.filter_cons_of_pos (h a hg)]
      simpa using ih
    · rw [List.filter_cons_of_neg (by simpa using hg)]
      refine ih.trans ?hh
      by_cases hf : f a = true
      · rw [List.filter_cons_of_pos hf]
        exact Nat.le_succ _
      · rw [List.filter_cons_of_neg (by simpa using hf)]

/-- The four stage predicates as a list, in the implemented order. -/
def conditionList (p : Params) : List (Row → Bool) :=
  [volumeCond p, proximityCond p, tradesCond p, rangeCond]

/-- Apply a list of row predicates as successive filter stages. -/
def applyFilters (cs : List (Row → Bool)) (rows : List Row) : List Row :=
  cs.foldl (fun acc c => acc.filter c) rows

theorem all_of_perm {l1 l2 : List (Row → Bool)} (h : l1.Perm l2) (r : Row) :
    l1.all (fun c => c r) = l2.all (fun c => c r) := by
  induction h with
  | nil => rfl
  | cons x _ ih => simp only [List.all_cons, ih]
  | swap x y l => simp only [List.all_cons, ← Bool.and_assoc, Bool.and_comm (y r) (x r)]
  | trans _ _ ih1 ih2 => exact ih1.trans ih2

theorem applyFilters_eq_filter_all (cs : List (Row → Bool)) (rows : List Row) :
    applyFilters cs rows = rows.filter (fun r => cs.all (fun c => c r)) := by
  induction cs generalizing rows with
  | nil => simp [applyFilters]
  | cons c cs ih =>
    show applyFilters cs (rows.filter c) = _
    rw [ih (rows.filter c), List.filter_filter]
    apply List.filter_congr
    intro r _
    rw [List.all_cons, Bool.and_comm]

theorem roundHalfEven_nonneg {q : ℚ} (hq : 0 ≤ q) : 0 ≤ roundHalfEven q := by
  have h0 : (0 : ℤ) ≤ ⌊q⌋ := Int.le_floor.mpr (by exact_mod_cast hq)
  unfold roundHalfEven
  split_ifs <;> omega

theorem roundHalfEven_le_of_le {q : ℚ} (hq : q ≤ 10000) : roundHalfEven q ≤ 10000 := by
  have hfl : ⌊q⌋ ≤ 10000 := by
    have h := Int.floor_le_floor (α := ℚ) hq
    simpa using h
  have hfr : Int.fract q = q - ⌊q⌋ := rfl
  unfold roundHalfEven
  split_ifs with h1 h2 h3
  · exact hfl
  · have hne : ⌊q⌋ ≠ 10000 := by
      intro he
      rw [he] at hfr
      have hle : Int.fract q ≤ 0 := by rw [hfr]; push_cast; linarith
      linarith
    omega
  · exact hfl
  · have hne : ⌊q⌋ ≠ 10000 := by
      intro he
      rw [he] at hfr
      have hle : Int.fract q ≤ 0 := by rw [hfr]; push_cast; linarith
      have hge : (1:ℚ)/2 ≤ Int.fract q := not_lt.mp h1
      linarith
    omega

theorem round2_nonneg {q : ℚ} (hq : 0 ≤ q) : 0 ≤ round2 q := by
  unfold round2
  apply div_nonneg _ (by norm_num)
  have h : (0:ℤ) ≤ roundHalfEven (q * 100) := roundHalfEven_nonneg (by positivity)
  exact_mod_cast h

theorem round2_le_100 {q : ℚ} (hq : q ≤ 100) : round2 q ≤ 100 := by
  unfold round2
  rw [div_le_iff₀ (by norm_num)]
  have h : roundHalfEven (q * 100) ≤ 10000 := roundHalfEven_le_of_le (by linarith)
  calc ((roundHalfEven (q * 100) : ℤ) : ℚ) ≤ 10000 := by exact_mod_cast h
    _ = 100 * 100 := by norm_num

/-! ## Claims -/

/-- C1: for every row that passed the Validator and Coercer and every
admissible parameter triple, the row appears in the final output exactly
when all four filter conditions hold: `NET_TRDQTY > min_volume * 100000`,
`0.5 < DIST_52W_% ≤ max_distance` with
`DIST_52W_% = (HI_52_WK - CLOSE_PRICE) / HI_52_WK * 100`,
`TRADES > min_trades`, and `DAY_RANGE_% < 5` with
`DAY_RANGE_% = (HIGH_PRICE - LOW_PRICE) / CLOSE_PRICE * 100`. -/
theorem output_membership_iff_filters (p : Params) (rows : List Row) (r : Row)
    (hp : Admissible p) (hr : r ∈ rows) :
    (r, calculate_score p r) ∈ pipeline p rows ↔
      ((p.min_volume : ℚ) * 100000 < r.net_trdqty ∧
        (1/2 < (r.hi_52_wk - r.close_price) / r.hi_52_wk * 100 ∧
          (r.hi_52_wk - r.close_price) / r.hi_52_wk * 100 ≤ (p.max_distance : ℚ)) ∧
        (p.min_trades : ℚ) < r.trades ∧
        (r.high_price - r.low_price) / r.close_price * 100 < 5) := by
  rw [mem_pipeline_iff, mem_filterChain_iff]
  simp only [volumeCond, proximityCond, tradesCond, rangeCond, dist52, dayRange,
    Bool.and_eq_true, decide_eq_true_eq]
  tauto

/-- Witness for C1: the spec's example row at the default thresholds. -/
theorem output_membership_iff_filters_witness :
    ((⟨"FOO", 3000000, 95, 100, 93, 96, 15000⟩ : Row),
        calculate_score ⟨20, 6, 10000⟩ ⟨"FOO", 3000000, 95, 100, 93, 96, 15000⟩) ∈
      pipeline ⟨20, 6, 10000⟩ [⟨"FOO", 3000000, 95, 100, 93, 96, 15000⟩] :=
  (output_membership_iff_filters ⟨20, 6, 10000⟩ [⟨"FOO", 3000000, 95, 100, 93, 96, 15000⟩]
      ⟨"FOO", 3000000, 95, 100, 93, 96, 15000⟩ (by decide) (by simp)).mpr (by norm_num)

/-- Spec-side scoring formula, written as in §4.4 of the spec:
`round((0.4*volume_score + 0.3*trade_score + 0.3*proximity_score)*100, 2)`
with each sub-score clamped by `min`. -/
def spec_score (p : Params) (r : Row) : ℚ :=
  round2 (((4/10) * min (r.net_trdqty / 10000000) 1
    + (3/10) * min (r.trades / 100000) 1
    + (3/10) * (1 - min (dist52 r / (p.max_distance : ℚ)) 1)) * 100)

/-- C2: the scorer computes exactly the claim's formula, and the spec's
example row `{FOO, 3000000, 95, 100, 93, 96, 15000}` survives all four
filters at the defaults and receives `ACCUMULATION_% = 21.5`. -/
theorem scorer_formula_and_example :
    (∀ (p : Params) (r : Row), calculate_score p r = spec_score p r) ∧
      pipeline ⟨20, 6, 10000⟩ [⟨"FOO", 3000000, 95, 100, 93, 96, 15000⟩] =
        [(⟨"FOO", 3000000, 95, 100, 93, 96, 15000⟩, 43/2)] := by
  constructor
  · intro p r
    simp only [calculate_score, spec_score]
    congr 1
    ring
  · have hrow : calculate_score ⟨20, 6, 10000⟩ ⟨"FOO", 3000000, 95, 100, 93, 96, 15000⟩ = 43/2 := by
      unfold calculate_score round2 dist52
      norm_num [min_def, roundHalfEven]
    have hchain : filterChain ⟨20, 6, 10000⟩ [⟨"FOO", 3000000, 95, 100, 93, 96, 15000⟩] =
        [⟨"FOO", 3000000, 95, 100, 93, 96, 15000⟩] := by
      rw [filterChain_eq_filter]
      simp only [List.filter_cons, List.filter_nil]
      norm_num [volumeCond, proximityCond, tradesCond, rangeCond, dist52, dayRange]
    unfold pipeline
    rw [hchain]
    unfold scoreRows sortByScoreDesc
    simp [hrow, List.insertionSort]

/-- C5: each of the four Filter Chain stages only narrows the row set:
every stage's output is a sublist of its input, its length does not
grow, and every row of the output was already in the input (so no stage
reintroduces a dropped row). -/
theorem filter_stages_narrow (p : Params) (rows : List Row) :
    ((volumeFilter p rows).Sublist rows ∧
      (volumeFilter p rows).length ≤ rows.length ∧
      ∀ r ∈ volumeFilter p rows, r ∈ rows) ∧
    ((proximityFilter p (volumeFilter p rows)).Sublist (volumeFilter p rows) ∧
      (proximityFilter p (volumeFilter p rows)).length ≤ (volumeFilter p rows).length ∧
      ∀ r ∈ proximityFilter p (volumeFilter p rows), r ∈ volumeFilter p rows) ∧
    ((tradesFilter p (proximityFilter p (volumeFilter p rows))).Sublist
        (proximityFilter p (volumeFilter p rows)) ∧
      (tradesFilter p (proximityFilter p (volumeFilter p rows))).length ≤
        (proximityFilter p (volumeFilter p rows)).length ∧
      ∀ r ∈ tradesFilter p (proximityFilter p (volumeFilter p rows)),
        r ∈ proximityFilter p (volumeFilter p rows)) ∧
    ((rangeFilter (tradesFilter p (proximityFilter p (volumeFilter p rows)))).Sublist
        (tradesFilter p (proximityFilter p (volumeFilter p rows))) ∧
      (rangeFilter (tradesFilter p (proximityFilter p (volumeFilter p rows)))).length ≤
        (tradesFilter p (proximityFilter p (volumeFilter p rows))).length ∧
      ∀ r ∈ rangeFilter (tradesFilter p (proximityFilter p (volumeFilter p rows))),
        r ∈ tradesFilter p (proximityFilter p (volumeFilter p rows))) := by
  refine ⟨⟨List.filter_sublist _, (List.filter_sublist _).length_le,
      fun r hr => (List.filter_sublist _).subset hr⟩,
    ⟨List.filter_sublist _, (List.filter_sublist _).length_le,
      fun r hr => (List.filter_sublist _).subset hr⟩,
    ⟨List.filter_sublist _, (List.filter_sublist _).length_le,
      fun r hr => (List.filter_sublist _).subset hr⟩,
    ⟨List.filter_sublist _, (List.filter_sublist _).length_le,
      fun r hr => (List.filter_sublist _).subset hr⟩⟩

/-- C6: applying the four stage predicates in any permutation of the
implemented order — or as the single conjunction of all four over the
coerced rows — yields exactly the rows of the implemented chain. -/
theorem filter_order_irrelevant (p : Params) (rows : List Row)
    (cs : List (Row → Bool)) (hperm : cs.Perm (conditionList p)) :
    applyFilters cs rows = filterChain p rows ∧
      filterChain p rows =
        rows.filter (fun r => (conditionList p).all (fun c => c r)) := by
  have hchain : filterChain p rows =
      rows.filter (fun r => (conditionList p).all (fun c => c r)) := by
    rw [filterChain_eq_filter]
    apply List.filter_congr
    intro r _
    simp [conditionList, List.all_cons, Bool.and_assoc]
  refine ⟨?ord, hchain⟩
  rw [applyFilters_eq_filter_all, hchain]
  apply List.filter_congr
  intro r _
  exact all_of_perm hperm r

/-- Witness for C6: the four predicates applied in reversed order give
the same result as the implemented chain on a concrete row. -/
theorem filter_order_irrelevant_witness :
    applyFilters ((conditionList ⟨20, 6, 10000⟩).reverse)
        [⟨"FOO", 3000000, 95, 100, 93, 96, 15000⟩] =
      filterChain ⟨20, 6, 10000⟩ [⟨"FOO", 3000000, 95, 100, 93, 96, 15000⟩] :=
  (filter_order_irrelevant ⟨20, 6, 10000⟩ [⟨"FOO", 3000000, 95, 100, 93, 96, 15000⟩]
      ((conditionList ⟨20, 6, 10000⟩).reverse) (List.reverse_perm _)).1

/-- C10: a row with `HI_52_WK = 0` never survives the Filter Chain, so it
neither reaches the Scorer nor appears in the final output, and no error
is raised.  In the `ℚ` model the division yields `0`; in pandas it
yields `±inf` or `NaN`; either way the value fails the proximity window
`0.5 < DIST_52W_% ≤ max_distance` (with `max_distance ≤ 15`). -/
theorem zero_high_never_output (p : Params) (rows : List Row) (r : Row)
    (hp : Admissible p) (h0 : r.hi_52_wk = 0) :
    r ∉ filterChain p rows ∧ ∀ s, (r, s) ∉ pipeline p rows := by
  have hdist : dist52 r = 0 := by
    unfold dist52
    rw [h0]
    simp
  have hprox : proximityCond p r = false := by
    unfold proximityCond
    rw [hdist]
    norm_num
  have hnot : r ∉ filterChain p rows := by
    intro hmem
    rcases (mem_filterChain_iff p rows r).mp hmem with ⟨-, -, hpx, -, -⟩
    rw [hprox] at hpx
    cases hpx
  refine ⟨hnot, fun s hmem => ?sc⟩
  exact hnot ((mem_pipeline_iff p rows r s).mp hmem).1

/-- Witness for C10: a concrete row with a zero 52-week high is absent
from the chain and from the output. -/
theorem zero_high_never_output_witness :
    (⟨"ZERO", 3000000, 95, 0, 93, 96, 15000⟩ : Row) ∉
        filterChain ⟨20, 6, 10000⟩ [⟨"ZERO", 3000000, 95, 0, 93, 96, 15000⟩] ∧
      ((⟨"ZERO", 3000000, 95, 0, 93, 96, 15000⟩ : Row), (0 : ℚ)) ∉
        pipeline ⟨20, 6, 10000⟩ [⟨"ZERO", 3000000, 95, 0, 93, 96, 15000⟩] :=
  ⟨(zero_high_never_output ⟨20, 6, 10000⟩ _ _ (by decide) rfl).1,
    (zero_high_never_output ⟨20, 6, 10000⟩ _ _ (by decide) rfl).2 0⟩

/-- C4: with all other inputs held equal, the final output row count is
antitone in `min_volume`, monotone in `max_distance`, and antitone in
`min_trades`. -/
theorem output_count_threshold_monotone :
    (∀ (rows : List Row) (v v' d t : ℤ), v ≤ v' →
        (pipeline ⟨v', d, t⟩ rows).length ≤ (pipeline ⟨v, d, t⟩ rows).length) ∧
    (∀ (rows : List Row) (v d d' t : ℤ), d ≤ d' →
        (pipeline ⟨v, d, t⟩ rows).length ≤ (pipeline ⟨v, d', t⟩ rows).length) ∧
    (∀ (rows : List Row) (v d t t' : ℤ), t ≤ t' →
        (pipeline ⟨v, d, t'⟩ rows).length ≤ (pipeline ⟨v, d, t⟩ rows).length) := by
  refine ⟨?vol, ?dst, ?trd⟩
  · intro rows v v' d t hvv
    rw [pipeline_length, pipeline_length, filterChain_eq_filter, filterChain_eq_filter]
    apply length_filter_mono
    intro r
    simp only [volumeCond, proximityCond, tradesCond, rangeCond,
      Bool.and_eq_true, decide_eq_true_eq]
    rintro ⟨⟨⟨h1, h2⟩, h3⟩, h4⟩
    refine ⟨⟨⟨?v1, h2⟩, h3⟩, h4⟩
    have hc : ((v : ℚ)) ≤ ((v' : ℚ)) := by exact_mod_cast hvv
    nlinarith
  · intro rows v d d' t hdd
    rw [pipeline_length, pipeline_length, filterChain_eq_filter, filterChain_eq_filter]
    apply length_filter_mono
    intro r
    simp only [volumeCond, proximityCond, tradesCond, rangeCond,
      Bool.and_eq_true, decide_eq_true_eq]
    rintro ⟨⟨⟨h1, h2a, h2b⟩, h3⟩, h4⟩
    have hc : ((d : ℚ)) ≤ ((d' : ℚ)) := by exact_mod_cast hdd
    exact ⟨⟨⟨h1, h2a, h2b.trans hc⟩, h3⟩, h4⟩
  · intro rows v d t t' htt
    rw [pipeline_length, pipeline_length, filterChain_eq_filter, filterChain_eq_filter]
    apply length_filter_mono
    intro r
    simp only [volumeCond, proximityCond, tradesCond, rangeCond,
      Bool.and_eq_true, decide_eq_true_eq]
    rintro ⟨⟨⟨h1, h2⟩, h3⟩, h4⟩
    have hc : ((t : ℚ)) ≤ ((t' : ℚ)) := by exact_mod_cast htt
    exact ⟨⟨⟨h1, h2⟩, lt_of_le_of_lt hc h3⟩, h4⟩

/-- Witness for C4: the three monotonicities instantiated on a concrete
one-row dataset and concrete threshold pairs. -/
theorem output_count_threshold_monotone_witness :
    ((pipeline ⟨2, 6, 10000⟩ [⟨"FOO", 3000000, 95, 100, 93, 96, 15000⟩]).length ≤
        (pipeline ⟨1, 6, 10000⟩ [⟨"FOO", 3000000, 95, 100, 93, 96, 15000⟩]).length) ∧
    ((pipeline ⟨20, 2, 10000⟩ [⟨"FOO", 3000000, 95, 100, 93, 96, 15000⟩]).length ≤
        (pipeline ⟨20, 6, 10000⟩ [⟨"FOO", 3000000, 95, 100, 93, 96, 15000⟩]).length) ∧
    ((pipeline ⟨20, 6, 20000⟩ [⟨"FOO", 3000000, 95, 100, 93, 96, 15000⟩]).length ≤
        (pipeline ⟨20, 6, 10000⟩ [⟨"FOO", 3000000, 95, 100, 93, 96, 15000⟩]).length) :=
  ⟨output_count_threshold_monotone.1 [⟨"FOO", 3000000, 95, 100, 93, 96, 15000⟩] 1 2 6 10000
      (by decide),
    output_count_threshold_monotone.2.1 [⟨"FOO", 3000000, 95, 100, 93, 96, 15000⟩] 20 2 6 10000
      (by decide),
    output_count_threshold_monotone.2.2 [⟨"FOO", 3000000, 95, 100, 93, 96, 15000⟩] 20 6 10000 20000
      (by decide)⟩

/-- Sub-score bounds for a row that passed the volume, proximity and
trades stages, under admissible thresholds. -/
theorem subscores_bounded (p : Params) (r : Row) (hp : Admissible p)
    (hv : volumeCond p r = true) (hpx : proximityCond p r = true)
    (ht : tradesCond p r = true) :
    (0 ≤ min (r.net_trdqty / 10000000) 1 ∧ min (r.net_trdqty / 10000000) 1 ≤ 1) ∧
    (0 ≤ min (r.trades / 100000) 1 ∧ min (r.trades / 100000) 1 ≤ 1) ∧
    (0 ≤ 1 - min (dist52 r / (p.max_distance : ℚ)) 1 ∧
      1 - min (dist52 r / (p.max_distance : ℚ)) 1 ≤ 1) := by
  obtain ⟨hv1, -, hd1, -, ht1, -⟩ := hp
  unfold volumeCond at hv
  unfold proximityCond at hpx
  unfold tradesCond at ht
  simp only [Bool.and_eq_true, decide_eq_true_eq] at hv hpx ht
  have hminv : (1 : ℚ) ≤ (p.min_volume : ℚ) := by exact_mod_cast hv1
  have hmind : (2 : ℚ) ≤ (p.max_distance : ℚ) := by exact_mod_cast hd1
  have hmint : (1000 : ℚ) ≤ (p.min_trades : ℚ) := by exact_mod_cast ht1
  have hnet : (0 : ℚ) ≤ r.net_trdqty := by nlinarith
  have htr : (0 : ℚ) ≤ r.trades := by nlinarith
  have hdist : (0 : ℚ) ≤ dist52 r := by linarith [hpx.1]
  refine ⟨⟨le_min (by positivity) (by norm_num), min_le_right _ _⟩,
    ⟨le_min (by positivity) (by norm_num), min_le_right _ _⟩, ?px⟩
  have hq : (0 : ℚ) ≤ dist52 r / (p.max_distance : ℚ) := by positivity
  constructor
  · have := min_le_right (dist52 r / (p.max_distance : ℚ)) 1
    linarith
  · have := le_min hq (by norm_num : (0:ℚ) ≤ 1)
    linarith

/-- C7: under admissible thresholds, the three sub-scores lie in `[0,1]`
for every row surviving the Filter Chain, and every final-output row's
`ACCUMULATION_%` lies in `[0,100]`. -/
theorem score_bounds (p : Params) (rows : List Row) (hp : Admissible p) :
    (∀ r ∈ filterChain p rows,
        (0 ≤ min (r.net_trdqty / 10000000) 1 ∧ min (r.net_trdqty / 10000000) 1 ≤ 1) ∧
        (0 ≤ min (r.trades / 100000) 1 ∧ min (r.trades / 100000) 1 ≤ 1) ∧
        (0 ≤ 1 - min (dist52 r / (p.max_distance : ℚ)) 1 ∧
          1 - min (dist52 r / (p.max_distance : ℚ)) 1 ≤ 1)) ∧
    (∀ (r : Row) (s : ℚ), (r, s) ∈ pipeline p rows → 0 ≤ s ∧ s ≤ 100) := by
  have hsub : ∀ r ∈ filterChain p rows,
      (0 ≤ min (r.net_trdqty / 10000000) 1 ∧ min (r.net_trdqty / 10000000) 1 ≤ 1) ∧
      (0 ≤ min (r.trades / 100000) 1 ∧ min (r.trades / 100000) 1 ≤ 1) ∧
      (0 ≤ 1 - min (dist52 r / (p.max_distance : ℚ)) 1 ∧
        1 - min (dist52 r / (p.max_distance : ℚ)) 1 ≤ 1) := by
    intro r hr
    rcases (mem_filterChain_iff p rows r).mp hr with ⟨-, hv, hpx, ht, -⟩
    exact subscores_bounded p r hp hv hpx ht
  refine ⟨hsub, fun r s hmem => ?bnd⟩
  rcases (mem_pipeline_iff p rows r s).mp hmem with ⟨hr, rfl⟩
  rcases hsub r hr with ⟨⟨hv0, hv1⟩, ⟨ht0, ht1⟩, ⟨hp0, hp1⟩⟩
  simp only [calculate_score]
  constructor
  · apply round2_nonneg
    nlinarith
  · apply round2_le_100
    nlinarith

/-- Witness for C7: concrete bounds for the example row's score at the
default thresholds. -/
theorem score_bounds_witness :
    (0 : ℚ) ≤ calculate_score ⟨20, 6, 10000⟩ ⟨"FOO", 3000000, 95, 100, 93, 96, 15000⟩ ∧
      calculate_score ⟨20, 6, 10000⟩ ⟨"FOO", 3000000, 95, 100, 93, 96, 15000⟩ ≤ 100 :=
  (score_bounds ⟨20, 6, 10000⟩ [⟨"FOO", 3000000, 95, 100, 93, 96, 15000⟩] (by decide)).2
    ⟨"FOO", 3000000, 95, 100, 93, 96, 15000⟩
    (calculate_score ⟨20, 6, 10000⟩ ⟨"FOO", 3000000, 95, 100, 93, 96, 15000⟩)
    ((mem_pipeline_iff ⟨20, 6, 10000⟩ _ _ _).mpr
      ⟨(mem_filterChain_iff ⟨20, 6, 10000⟩ _ _).mpr
        ⟨by simp, by norm_num [volumeCond], by norm_num [proximityCond, dist52],
          by norm_num [tradesCond], by norm_num [rangeCond, dayRange]⟩, rfl⟩)

/-- C8: numeric coercion is total — an unparseable cell becomes missing
instead of raising — and a row survives the Coercer exactly when no cell
in any column is missing after coercion; surviving rows therefore hold
values in all seven required columns, and the drop never turns into a
run-halting error (the run still returns the ordinary output). -/
theorem coercer_complete_rows :
    (∀ raw : RawRow, (coerceRow raw).isSome = rowComplete raw) ∧
    (∀ (raws : List RawRow) (row : Row), row ∈ coercer raws →
        ∃ raw ∈ raws, coerceRow raw = some row) ∧
    (∀ (header : List String) (raws : List RawRow) (p : Params),
        headerOk header = true →
          runScanner header raws p = .ok (pipeline p (coercer raws))) := by
  refine ⟨?cmp, ?mem, ?nofatal⟩
  · intro raw
    unfold coerceRow rowComplete
    rcases hx : raw.extra.all Option.isSome with _ | _ <;>
      rcases raw.security with _ | s <;>
        rcases to_numeric raw.net_trdqty with _ | v <;>
          rcases to_numeric raw.close_price with _ | c <;>
            rcases to_numeric raw.hi_52_wk with _ | h <;>
              rcases to_numeric raw.low_price with _ | lo <;>
                rcases to_numeric raw.high_price with _ | hi <;>
                  rcases to_numeric raw.trades with _ | t <;>
                    simp [Option.isSome, hx]
  · intro raws row hmem
    rcases List.mem_filterMap.mp hmem with ⟨raw, hraw, heq⟩
    exact ⟨raw, hraw, heq⟩
  · intro header raws p hok
    unfold runScanner
    rw [hok]
    simp

/-- Witness for C8: a row with an unparseable `NET_TRDQTY` cell is
dropped (its completeness bit is false), a fully parseable row survives
coercion intact, and the run still completes normally. -/
theorem coercer_complete_rows_witness :
    ((coerceRow ⟨some "BAD", .str "abc", .num 50, .num 52, .num 49, .num 51, .num 12000, []⟩).isSome =
        rowComplete ⟨some "BAD", .str "abc", .num 50, .num 52, .num 49, .num 51, .num 12000, []⟩) ∧
    (∃ raw ∈ [(⟨some "BAR", .num 2500000, .num 50, .num 52, .num 49, .num 51, .num 12000,
          [some "note"]⟩ : RawRow)],
        coerceRow raw = some ⟨"BAR", 2500000, 50, 52, 49, 51, 12000⟩) ∧
    runScanner ["SECURITY", "NET_TRDQTY", "CLOSE_PRICE", "HI_52_WK", "LOW_PRICE", "HIGH_PRICE",
        "TRADES"] [] ⟨20, 6, 10000⟩ = .ok (pipeline ⟨20, 6, 10000⟩ (coercer [])) :=
  ⟨coercer_complete_rows.1 _,
    coercer_complete_rows.2.1
      [(⟨some "BAR", .num 2500000, .num 50, .num 52, .num 49, .num 51, .num 12000,
          [some "note"]⟩ : RawRow)]
      ⟨"BAR", 2500000, 50, 52, 49, 51, 12000⟩ (by decide),
    coercer_complete_rows.2.2 _ [] ⟨20, 6, 10000⟩ (by decide)⟩

/-- C9: after stripping and uppercasing every label, the run halts with
the fatal column error exactly when some required column is absent; when
all seven are present the error is never signaled; and the check only
sees normalized labels, so any relabeling that preserves the normalized
form (case changes, surrounding whitespace) cannot change the outcome. -/
theorem validator_gate :
    (∀ (header : List String) (raws : List RawRow) (p : Params),
        headerOk header = false →
          runScanner header raws p = .error "Required columns not found in CSV.") ∧
    (∀ (header : List String) (raws : List RawRow) (p : Params),
        headerOk header = true →
          runScanner header raws p = .ok (pipeline p (coercer raws))) ∧
    (∀ (header : List String) (f : String → String),
        (∀ s, normalizeLabel (f s) = normalizeLabel s) →
          headerOk (header.map f) = headerOk header) := by
  refine ⟨?halt, ?go, ?insens⟩
  · intro header raws p hbad
    unfold runScanner
    rw [hbad]
    simp
  · intro header raws p hok
    unfold runScanner
    rw [hok]
    simp
  · intro header f hf
    unfold headerOk normalizeHeader
    have hmap : List.map (normalizeLabel ∘ f) header = List.map normalizeLabel header :=
      List.map_congr_left (fun a _ => hf a)
    rw [List.map_map, hmap]

/-- Witness for C9: a header missing the required columns halts the run;
a lower-case, whitespace-padded header passes; and padding every label
with a leading blank does not change the check. -/
theorem validator_gate_witness :
    runScanner ["WRONG"] [] ⟨20, 6, 10000⟩ =
        .error "Required columns not found in CSV." ∧
    runScanner [" security ", "net_trdqty", "close_price", "hi_52_wk", "low_price",
        "high_price", "trades"] [] ⟨20, 6, 10000⟩ =
      .ok (pipeline ⟨20, 6, 10000⟩ (coercer [])) ∧
    headerOk (["SECURITY", "NET_TRDQTY", "CLOSE_PRICE", "HI_52_WK", "LOW_PRICE",
          "HIGH_PRICE", "TRADES"].map (fun s => " " ++ s)) =
      headerOk ["SECURITY", "NET_TRDQTY", "CLOSE_PRICE", "HI_52_WK", "LOW_PRICE",
        "HIGH_PRICE", "TRADES"] :=
  ⟨validator_gate.1 _ [] ⟨20, 6, 10000⟩ (by decide),
    validator_gate.2.1 _ [] ⟨20, 6, 10000⟩ (by decide),
    validator_gate.2.2 _ (fun s => " " ++ s)
      (fun s => by
        unfold normalizeLabel trimChars
        rw [String.data_append]
        simp +decide [List.dropWhile_cons])⟩

end Scanner
